import Mathlib

/-!
Shallow embedding of the asynchronous HTTP server in src/app/main.py.

Bytes on the wire are modelled as Lean String values (the Python code decodes
the buffer to text immediately and works on str throughout; response byte
lengths are modelled as UTF-8 byte sizes, matching len(s.encode())).  The file
system is modelled as an association list from path to file content, with a
write consing a new binding in front (the newest binding shadows older ones,
like overwriting the file).  Python exceptions that the server never catches
are modelled as a crash outcome of the connection task.
-/

/-- The CRLF line terminator constant of the source. -/
def CRLF : String := "\r\n"

/-- RESP_LINE_200 from the source (modelled as text, not bytes). -/
def RESP_LINE_200 : String := "HTTP/1.1 200 OK"

/-- RESP_LINE_201 from the source. -/
def RESP_LINE_201 : String := "HTTP/1.1 201 Created"

/-- SUPPORTED_ENCODINGS from the source. -/
def SUPPORTED_ENCODINGS : List String := ["gzip"]

/-- Whether the first list is a prefix of the second, by character comparison. -/
def isPrefixList : List Char → List Char → Bool
  | [], _ => true
  | _ :: _, [] => false
  | a :: as, b :: bs => a == b && isPrefixList as bs

/-- Split a character list at the first occurrence of the (non-empty)
separator: returns the part before it and the part after it, or none when the
separator does not occur.  This is the building block for Python str.split. -/
def splitFirst (sep : List Char) : List Char → Option (List Char × List Char)
  | [] => if sep.isEmpty then some ([], []) else none
  | c :: rest =>
    if isPrefixList sep (c :: rest) then some ([], (c :: rest).drop sep.length)
    else
      match splitFirst sep rest with
      | none => none
      | some (pre, post) => some (c :: pre, post)

/-- Fuel-driven splitting on every occurrence of the separator.  With fuel at
least the length of the input and a non-empty separator, this is exactly
Python str.split(sep): each recursive step consumes at least one character of
the input, so the fuel never runs out on the calls made by strSplit. -/
def splitOnFuel (sep : List Char) : Nat → List Char → List (List Char)
  | 0, l => [l]
  | fuel + 1, l =>
    match splitFirst sep l with
    | none => [l]
    | some (pre, post) => pre :: splitOnFuel sep fuel post

/-- Python str.split with an explicit separator: s.split(sep).
No separator occurrence collapsing, empty parts are kept. -/
def strSplit (s sep : String) : List String :=
  (splitOnFuel sep.toList s.toList.length s.toList).map String.mk

/-- Python str.removesuffix: drop the given suffix when the string ends with
it, otherwise return the string unchanged. -/
def removesuffix (s sfx : String) : String :=
  if isPrefixList sfx.toList.reverse s.toList.reverse then
    String.mk (s.toList.take (s.toList.length - sfx.toList.length))
  else s

/-- extract_params from the source: if the raw target contains exactly one
"/" there is no parameter, otherwise the parameter is the last "/"-delimited
segment (Python requested_target.split("/")[-1]). -/
def extract_params (requested_target : String) : Option String :=
  if requested_target.toList.count '/' = 1 then none
  else some ((strSplit requested_target "/").getLastD "")

/-- The route-prefix computation of parse_request: when a parameter was
extracted, the trailing "/param" suffix is removed from the raw target
(Python raw_target.removesuffix(f"/{maybe_params}")). -/
def target_of (raw_target : String) : String :=
  match extract_params raw_target with
  | some p => removesuffix raw_target ("/" ++ p)
  | none => raw_target

/-- The HTTPMethod enumeration of the source. -/
inductive HTTPMethod where
  | GET
  | POST
  | PUT
  | PATCH
  | DELETE
deriving DecidableEq, BEq, Repr

/-- HTTPMethod(raw_method): the Enum constructor; an unrecognized token is a
ValueError in Python, modelled as none. -/
def HTTPMethod.fromString : String → Option HTTPMethod
  | "GET" => some .GET
  | "POST" => some .POST
  | "PUT" => some .PUT
  | "PATCH" => some .PATCH
  | "DELETE" => some .DELETE
  | _ => none

/-- The Request dataclass of the source.  The headers dict is modelled as an
association list where the most recent insertion is in front, so List.lookup
returns the last-written value, matching Python dict assignment. -/
structure Request where
  method : HTTPMethod
  target : String
  headers : List (String × String)
  body : String
  params : Option String
  version : String
deriving DecidableEq, Repr

/-- The domain failures a handler can raise: MissingParamsException,
MissingHeaderException, ResourceNotFoundException. -/
inductive HandlerError where
  | missingParams
  | missingHeader
  | resourceNotFound
deriving DecidableEq, Repr

/-- The file system seen through open/read/write, as path-content pairs. -/
abbrev FS := List (String × String)

/-- The home handler: returns an empty body. -/
def home (_dir : String) (fs : FS) (_request : Request) :
    Except HandlerError (String × FS) :=
  .ok ("", fs)

/-- The echo handler: raises MissingParamsException only when params is None
(an empty-string parameter passes the check) and otherwise returns the
parameter as the body. -/
def echo (_dir : String) (fs : FS) (request : Request) :
    Except HandlerError (String × FS) :=
  match request.params with
  | none => .error .missingParams
  | some p => .ok (p, fs)

/-- The user_agent handler: returns the User-Agent header value, raising
MissingHeaderException when the header is absent. -/
def user_agent (_dir : String) (fs : FS) (request : Request) :
    Except HandlerError (String × FS) :=
  match List.lookup "User-Agent" request.headers with
  | none => .error .missingHeader
  | some ua => .ok (ua, fs)

/-- The get_file handler: Python tests the parameter for falsiness (None or
empty string both raise MissingParamsException); a file that cannot be opened
raises ResourceNotFoundException. -/
def get_file (dir : String) (fs : FS) (request : Request) :
    Except HandlerError (String × FS) :=
  match request.params with
  | none => .error .missingParams
  | some p =>
    if p = "" then .error .missingParams
    else
      match List.lookup (dir ++ "/" ++ p) fs with
      | none => .error .resourceNotFound
      | some content => .ok (content, fs)

/-- The post_file handler: falsy parameter check like get_file; writes the
request body verbatim to dir/params and returns an empty body. -/
def post_file (dir : String) (fs : FS) (request : Request) :
    Except HandlerError (String × FS) :=
  match request.params with
  | none => .error .missingParams
  | some p =>
    if p = "" then .error .missingParams
    else .ok ("", (dir ++ "/" ++ p, request.body) :: fs)

/-- One entry of the route table: the success code and declared content type
given to the route decorator, and the raw handler it wraps. -/
structure RouteEntry where
  retcode : Nat
  declared_content_type : String
  handler : String → FS → Request → Except HandlerError (String × FS)

/-- self.routes from the source: GET has four routes, POST has one; PUT,
PATCH and DELETE have no table at all. -/
def routes : List (HTTPMethod × List (String × RouteEntry)) :=
  [ (.GET, [("/", ⟨200, "text/plain", home⟩),
            ("/echo", ⟨200, "text/plain", echo⟩),
            ("/user-agent", ⟨200, "text/plain", user_agent⟩),
            ("/files", ⟨200, "application/octet-stream", get_file⟩)]),
    (.POST, [("/files", ⟨201, "application/octet-stream", post_file⟩)]) ]

/-- A response in structured form: the status line, the header lines in emit
order, and the body.  Serialization appends CRLF after the status line and
each header, then a blank line, then the body, exactly like the byte
concatenation in the source. -/
structure Response where
  statusLine : String
  headers : List (String × String)
  body : String
deriving DecidableEq, Repr

/-- The wire form of a response, matching the incremental byte concatenation
of the route wrapper and of make_bad_request. -/
def serialize_response (r : Response) : String :=
  r.statusLine ++ CRLF
    ++ String.join (r.headers.map (fun h => h.1 ++ ": " ++ h.2 ++ CRLF))
    ++ CRLF ++ r.body

/-- make_bad_request from the source: only a status line, no headers and no
body. -/
def make_bad_request (status_code : Nat) (reason : String) : Response :=
  ⟨"HTTP/1.1 " ++ toString status_code ++ " " ++ reason, [], ""⟩

/-- The Content-Type block of the route wrapper: echo the request's
Content-Type header when present; otherwise emit the declared content type
only when the body is non-empty (len(ret) > 0 on the body bytes). -/
def content_type_part (request : Request) (declared_content_type : String)
    (ret : String) : List (String × String) :=
  match List.lookup "Content-Type" request.headers with
  | some requested_content_type => [("Content-Type", requested_content_type)]
  | none =>
    if 0 < ret.utf8ByteSize then [("Content-Type", declared_content_type)]
    else []

/-- The Content-Encoding block of the route wrapper: split the request's
Accept-Encoding header on ", " and advertise the first entry that is in
SUPPORTED_ENCODINGS; emit nothing when the header is absent or nothing
matches (the StopIteration is caught and only logged). -/
def content_encoding_part (request : Request) : List (String × String) :=
  match List.lookup "Accept-Encoding" request.headers with
  | none => []
  | some raw =>
    match (strSplit raw ", ").find? (fun enc => SUPPORTED_ENCODINGS.contains enc) with
    | some m => [("Content-Encoding", m)]
    | none => []

/-- The route decorator's wrapper: translate handler failures into 400/404
responses; on success check the declared return code (anything other than 200
or 201 raises ValueError, modelled as none), then assemble status line,
Content-Type, Content-Encoding, Content-Length and the body.  The body bytes
are appended verbatim, never transformed. -/
def route_wrapper (retcode : Nat) (declared_content_type : String)
    (request : Request) (fs : FS) (result : Except HandlerError (String × FS)) :
    Option (Response × FS) :=
  match result with
  | .error .missingParams => some (make_bad_request 400 "Bad Request", fs)
  | .error .missingHeader => some (make_bad_request 400 "Bad Request", fs)
  | .error .resourceNotFound => some (make_bad_request 404 "Not Found", fs)
  | .ok (ret, fs') =>
    if retcode = 200 ∨ retcode = 201 then
      some ({ statusLine := if retcode = 200 then RESP_LINE_200 else RESP_LINE_201,
              headers := content_type_part request declared_content_type ret
                ++ content_encoding_part request
                ++ [("Content-Length", toString ret.utf8ByteSize)],
              body := ret }, fs')
    else none

/-- The distinct ways parse_request can fail.  Only targetNotFound is the
TargetNotFoundException that handle_client catches; every other constructor
is an exception (ValueError or KeyError) that nothing catches. -/
inductive ParseError where
  | badRequestLine
  | badMethod
  | methodNotRouted
  | targetNotFound
  | headerUnpack
deriving DecidableEq, Repr

/-- The header/body loop of parse_request.  Each line containing ": " is
unpacked by k, v = line.split(": "): exactly two parts stores the pair (the
newest binding shadows an older one for the same name, like dict assignment),
three or more parts is a ValueError.  An empty line is skipped, and any other
line overwrites the body, so only the last such line is retained. -/
def parse_header_lines :
    List String → List (String × String) → String →
    Except ParseError (List (String × String) × String)
  | [], headers, body => .ok (headers, body)
  | line :: rest, headers, body =>
    match strSplit line ": " with
    | [k, v] => parse_header_lines rest ((k, v) :: headers) body
    | [_] =>
      if line = "" then parse_header_lines rest headers body
      else parse_header_lines rest headers line
    | _ => .error .headerUnpack

/-- parse_request from the source: split the buffer on CRLF, unpack the
request line into exactly three space-separated tokens, extract the parameter
and the route prefix, convert the method token, require the (method, prefix)
pair to be in the route table, then run the header/body loop and construct
the Request. -/
def parse_request (raw : String) : Except ParseError Request :=
  let data := strSplit raw CRLF
  let req_line := data.headD ""
  let rest := data.tail
  match strSplit req_line " " with
  | [raw_method, raw_target, version] =>
    let maybe_params := extract_params raw_target
    let target := target_of raw_target
    match HTTPMethod.fromString raw_method with
    | none => .error .badMethod
    | some method =>
      match List.lookup method routes with
      | none => .error .methodNotRouted
      | some table =>
        if (List.lookup target table).isSome then
          match parse_header_lines rest [] "" with
          | .error e => .error e
          | .ok (headers, body) =>
            .ok ⟨method, target, headers, body, maybe_params, version⟩
        else .error .targetNotFound
  | _ => .error .badRequestLine

/-- What one iteration of handle_client does after a successful read: either
a response is written back (and the loop continues), or an uncaught exception
escapes and the connection task dies. -/
inductive ServerReaction where
  | reply : Response → FS → ServerReaction
  | crash : ServerReaction
deriving DecidableEq, Repr

/-- The dispatch step of handle_client: look up routes[method][target] and
call the wrapped handler.  The lookups cannot fail for a Request the parser
produced; a failure would be an uncaught KeyError. -/
def dispatch_request (dir : String) (fs : FS) (request : Request) :
    ServerReaction :=
  match List.lookup request.method routes with
  | none => .crash
  | some table =>
    match List.lookup request.target table with
    | none => .crash
    | some entry =>
      match route_wrapper entry.retcode entry.declared_content_type request fs
          (entry.handler dir fs request) with
      | none => .crash
      | some (resp, fs') => .reply resp fs'

/-- One handle_client loop iteration on a complete message: a
TargetNotFoundException from the parser is answered with a 404 and the loop
continues; any other exception is uncaught and kills the connection task;
otherwise the request is dispatched. -/
def handle_message (dir : String) (fs : FS) (raw : String) : ServerReaction :=
  match parse_request raw with
  | .error .targetNotFound => .reply (make_bad_request 404 "Not Found") fs
  | .error _ => .crash
  | .ok request => dispatch_request dir fs request

/-- How a connection ends: the peer closed it (a zero-length read breaks the
loop) or an uncaught exception killed the task. -/
inductive ConnOutcome where
  | closed
  | crashed
deriving DecidableEq, Repr

/-- The responses written on one connection, the final file system, and how
the connection ended. -/
structure ClientRun where
  written : List Response
  fs : FS
  outcome : ConnOutcome
deriving DecidableEq, Repr

/-- The handle_client loop over the successive complete messages read from
the peer: each message is answered in order until the list is exhausted (the
peer closes, outcome closed) or an uncaught exception ends the task (outcome
crashed, nothing further written). -/
def run_client (dir : String) (fs : FS) : List String → ClientRun
  | [] => ⟨[], fs, .closed⟩
  | raw :: rest =>
    match handle_message dir fs raw with
    | .crash => ⟨[], fs, .crashed⟩
    | .reply resp fs' =>
      let r := run_client dir fs' rest
      ⟨resp :: r.written, r.fs, r.outcome⟩

/-! Helper lemmas about header lookup in assembled responses. -/

/-- Looking a key up in a concatenation consults the left list first. -/
theorem lookupAppend (k : String) (l1 l2 : List (String × String)) :
    List.lookup k (l1 ++ l2) =
      match List.lookup k l1 with
      | some v => some v
      | none => List.lookup k l2 := by
  induction l1 with
  | nil => simp [List.lookup]
  | cons hd tl ih =>
    obtain ⟨k1, v1⟩ := hd
    cases hk : k == k1 <;> simp [List.lookup, hk, ih]

/-- The Content-Type block binds the Content-Type name exactly as the source
decides it: request header first, else declared type for a non-empty body,
else nothing. -/
theorem content_type_part_ct (r : Request) (d ret : String) :
    List.lookup "Content-Type" (content_type_part r d ret) =
      match List.lookup "Content-Type" r.headers with
      | some v => some v
      | none => if 0 < ret.utf8ByteSize then some d else none := by
  unfold content_type_part
  cases List.lookup "Content-Type" r.headers with
  | none => by_cases h : 0 < ret.utf8ByteSize <;> simp [h, List.lookup]
  | some v => simp [List.lookup]

/-- The Content-Type block binds no other header name. -/
theorem content_type_part_other (r : Request) (d ret k : String)
    (hk : (k == "Content-Type") = false) :
    List.lookup k (content_type_part r d ret) = none := by
  unfold content_type_part
  cases List.lookup "Content-Type" r.headers with
  | none => by_cases h : 0 < ret.utf8ByteSize <;> simp [h, List.lookup, hk]
  | some v => simp [List.lookup, hk]

/-- The Content-Encoding block binds the Content-Encoding name to the first
requested encoding that is supported, when there is one. -/
theorem content_encoding_part_ce (r : Request) :
    List.lookup "Content-Encoding" (content_encoding_part r) =
      match List.lookup "Accept-Encoding" r.headers with
      | none => none
      | some raw =>
        (strSplit raw ", ").find? (fun enc => SUPPORTED_ENCODINGS.contains enc) := by
  unfold content_encoding_part
  cases List.lookup "Accept-Encoding" r.headers with
  | none => rfl
  | some raw =>
    dsimp only
    cases hf : (strSplit raw ", ").find? (fun enc => SUPPORTED_ENCODINGS.contains enc) with
    | none => rfl
    | some m => simp [List.lookup]

/-- The Content-Encoding block binds no other header name. -/
theorem content_encoding_part_other (r : Request) (k : String)
    (hk : (k == "Content-Encoding") = false) :
    List.lookup k (content_encoding_part r) = none := by
  unfold content_encoding_part
  cases List.lookup "Accept-Encoding" r.headers with
  | none => rfl
  | some raw =>
    dsimp only
    cases hf : (strSplit raw ", ").find? (fun enc => SUPPORTED_ENCODINGS.contains enc) with
    | none => rfl
    | some m => simp [List.lookup, hk]

/-! Claim theorems. -/

/-- Claim C6: path/parameter extraction.  When the raw target contains
exactly one "/" there is no trailing parameter and the route prefix is the
target itself; otherwise the parameter is the last "/"-delimited segment and
the route prefix is the raw target with that trailing "/segment" suffix
removed. -/
theorem extract_params_characterization (t : String) :
    (t.toList.count '/' = 1 → extract_params t = none ∧ target_of t = t) ∧
    (t.toList.count '/' ≠ 1 →
      extract_params t = some ((strSplit t "/").getLastD "") ∧
      target_of t = removesuffix t ("/" ++ (strSplit t "/").getLastD "")) := by
  constructor
  · intro h
    have he : extract_params t = none := by
      unfold extract_params
      rw [if_pos h]
    exact ⟨he, by simp [target_of, he]⟩
  · intro h
    have he : extract_params t = some ((strSplit t "/").getLastD "") := by
      unfold extract_params
      rw [if_neg h]
    exact ⟨he, by simp [target_of, he]⟩

/-- Witness for C6 at the concrete targets "/" (one separator) and
"/echo/abc" (two separators). -/
theorem extract_params_characterization_witness :
    (extract_params "/" = none ∧ target_of "/" = "/") ∧
    (extract_params "/echo/abc" = some ((strSplit "/echo/abc" "/").getLastD "") ∧
      target_of "/echo/abc"
        = removesuffix "/echo/abc" ("/" ++ (strSplit "/echo/abc" "/").getLastD "")) :=
  ⟨(extract_params_characterization "/").1 (by decide),
   (extract_params_characterization "/echo/abc").2 (by decide)⟩

/-- Claim C9: every Request the parser constructs has its method mapped to a
table in the route directory and its target present as a key of that table;
an absent (method, route-prefix) pair makes parse_request fail before any
Request value is built. -/
theorem request_target_routed (raw : String) (req : Request)
    (h : parse_request raw = .ok req) :
    ∃ table, List.lookup req.method routes = some table ∧
      (List.lookup req.target table).isSome := by
  unfold parse_request at h
  dsimp only at h
  split at h
  case _ raw_method raw_target version heq =>
    split at h
    case _ => exact absurd h (by simp)
    case _ method hm =>
      split at h
      case _ => exact absurd h (by simp)
      case _ table ht =>
        split at h
        case isTrue hsome =>
          split at h
          case _ => exact absurd h (by simp)
          case _ headers body hhb =>
            cases h
            exact ⟨table, ht, hsome⟩
        case isFalse => exact absurd h (by simp)
  case _ => exact absurd h (by simp)

/-- Witness for C9: the parse of a concrete well-formed request to the root
route. -/
theorem request_target_routed_witness :
    ∃ table, List.lookup HTTPMethod.GET routes = some table ∧
      (List.lookup "/" table).isSome :=
  request_target_routed ("GET / HTTP/1.1" ++ CRLF ++ CRLF)
    ⟨.GET, "/", [], "", none, "HTTP/1.1"⟩ rfl

/-- Claim C10: for both file routes, a request carrying the empty string as
its trailing parameter (the extraction result for a target ending in "/") is
answered with 400 Bad Request and no body, because get_file and post_file
test the parameter for falsiness; the file system is returned unchanged, so
nothing is read or written.  The last conjunct runs the whole pipeline on
GET /files/ whose target ends in a slash. -/
theorem files_empty_param_rejected (dir : String) (fs : FS)
    (hdrs : List (String × String)) (b ver : String) :
    dispatch_request dir fs ⟨.GET, "/files", hdrs, b, some "", ver⟩
        = .reply (make_bad_request 400 "Bad Request") fs ∧
    dispatch_request dir fs ⟨.POST, "/files", hdrs, b, some "", ver⟩
        = .reply (make_bad_request 400 "Bad Request") fs ∧
    handle_message dir fs ("GET /files/ HTTP/1.1" ++ CRLF ++ CRLF)
        = .reply (make_bad_request 400 "Bad Request") fs :=
  ⟨rfl, rfl, rfl⟩

/-- Counterexample to claim C4: GET /echo/ is answered with 200 OK and
Content-Length 0, not with 400 Bad Request, because the extracted parameter
is the empty string and echo only rejects a missing (None) parameter. -/
theorem echo_trailing_slash_not_400 :
    handle_message "d" [] ("GET /echo/ HTTP/1.1" ++ CRLF ++ CRLF)
        = .reply ⟨"HTTP/1.1 200 OK", [("Content-Length", "0")], ""⟩ [] ∧
    ServerReaction.reply ⟨"HTTP/1.1 200 OK", [("Content-Length", "0")], ""⟩ ([] : FS)
        ≠ .reply (make_bad_request 400 "Bad Request") [] :=
  ⟨rfl, by decide⟩

/-- Amended claim C4: a GET /echo/ request (target ending in a slash, so the
extracted trailing parameter is the empty string) yields status 200 with an
empty body and Content-Length 0; only GET /echo without the trailing slash
(parameter absent) yields the 400. -/
theorem echo_trailing_slash_ok (dir : String) (fs : FS) :
    handle_message dir fs ("GET /echo/ HTTP/1.1" ++ CRLF ++ CRLF)
        = .reply ⟨"HTTP/1.1 200 OK", [("Content-Length", "0")], ""⟩ fs ∧
    handle_message dir fs ("GET /echo HTTP/1.1" ++ CRLF ++ CRLF)
        = .reply (make_bad_request 400 "Bad Request") fs :=
  ⟨rfl, rfl⟩

/-- Counterexample to claim C1: an unrecognized method token ("FOO") does not
produce a 404 response; the ValueError raised by the HTTPMethod constructor
is caught nowhere, so no response is written and the connection task dies. -/
theorem unrecognized_method_no_404 :
    run_client "d" [] ["FOO / HTTP/1.1" ++ CRLF ++ CRLF] = ⟨[], [], .crashed⟩ ∧
    (⟨[], [], .crashed⟩ : ClientRun)
      ≠ ⟨[make_bad_request 404 "Not Found"], [], .closed⟩ :=
  ⟨rfl, by decide⟩

/-- Amended claim C1: only the TargetNotFoundException (an unroutable
(method, route-prefix) pair for a method that has a table, i.e. GET or POST)
is answered with exactly a 404 status line and no body, after which the
connection keeps serving the remaining messages; every other protocol parse
failure (malformed request line, unrecognized method token, or a recognized
method with no route table) is an uncaught exception: nothing is written and
the connection task dies. -/
theorem parse_failure_404_only_for_unrouted_target (dir : String) (fs : FS)
    (raw : String) (rest : List String) (e : ParseError)
    (h : parse_request raw = .error e) :
    run_client dir fs (raw :: rest) =
      (if e = .targetNotFound then
        ⟨make_bad_request 404 "Not Found" :: (run_client dir fs rest).written,
         (run_client dir fs rest).fs, (run_client dir fs rest).outcome⟩
      else ⟨[], fs, .crashed⟩) ∧
    serialize_response (make_bad_request 404 "Not Found")
      = "HTTP/1.1 404 Not Found" ++ CRLF ++ CRLF := by
  refine ⟨?_, rfl⟩
  have hm : handle_message dir fs raw =
      (if e = .targetNotFound then .reply (make_bad_request 404 "Not Found") fs
       else .crash) := by
    unfold handle_message
    rw [h]
    cases e <;> rfl
  cases e <;> simp [run_client, hm]

/-- Witness for C1 (amended): GET /nope is routable for no method, so the
connection answers 404 and then closes normally when the peer does. -/
theorem parse_failure_404_witness :
    run_client "d" [] ["GET /nope HTTP/1.1" ++ CRLF ++ CRLF]
        = ⟨[make_bad_request 404 "Not Found"], [], .closed⟩ ∧
    serialize_response (make_bad_request 404 "Not Found")
      = "HTTP/1.1 404 Not Found" ++ CRLF ++ CRLF := by
  have h := parse_failure_404_only_for_unrouted_target "d" []
    ("GET /nope HTTP/1.1" ++ CRLF ++ CRLF) [] .targetNotFound rfl
  exact ⟨by simpa [run_client] using h.1, h.2⟩

/-- Counterexample to claim C5: a header line whose value contains ": " is
not parsed; the unpacking of line.split(": ") raises an uncaught ValueError,
so the whole message is rejected and the connection dies with no response. -/
theorem header_value_with_separator_crashes :
    parse_request ("GET / HTTP/1.1" ++ CRLF ++ "X-Info: a: b" ++ CRLF ++ CRLF)
      = .error .headerUnpack ∧
    run_client "d" [] ["GET / HTTP/1.1" ++ CRLF ++ "X-Info: a: b" ++ CRLF ++ CRLF]
      = ⟨[], [], .crashed⟩ :=
  ⟨rfl, rfl⟩

/-- Amended claim C5: each header line is split on every occurrence of ": ".
A line with exactly one occurrence is stored as a name/value pair in the
header map (the new binding shadowing any earlier one of the same name); a
line with two or more occurrences makes the parser raise an uncaught error,
so a value containing ": " is never parsed. -/
theorem header_line_split_behavior (line : String) (rest : List String)
    (hs : List (String × String)) (b : String) :
    (∀ k v, strSplit line ": " = [k, v] →
      parse_header_lines (line :: rest) hs b
        = parse_header_lines rest ((k, v) :: hs) b) ∧
    (∀ k v w tl, strSplit line ": " = k :: v :: w :: tl →
      parse_header_lines (line :: rest) hs b = .error .headerUnpack) := by
  constructor
  · intro k v hsplit
    conv_lhs => rw [parse_header_lines, hsplit]
  · intro k v w tl hsplit
    conv_lhs => rw [parse_header_lines, hsplit]

/-- Witness for C5 (amended): one separator occurrence stores the pair, two
occurrences fail. -/
theorem header_line_split_behavior_witness :
    parse_header_lines ["Host: example.com"] [] ""
        = parse_header_lines [] [("Host", "example.com")] "" ∧
    parse_header_lines ["A: b: c"] [] "" = .error .headerUnpack :=
  ⟨(header_line_split_behavior "Host: example.com" [] [] "").1
      "Host" "example.com" rfl,
   (header_line_split_behavior "A: b: c" [] [] "").2 "A" "b" "c" [] rfl⟩

/-- Claim C2: for every request GET /echo with a non-empty trailing
parameter, dispatch produces a 200 response whose body is the parameter and
whose Content-Length header is the byte length of the parameter, whatever
the other request headers are; the file system is untouched. -/
theorem echo_success_response (dir : String) (fs : FS)
    (hdrs : List (String × String)) (b ver p : String) (_hp : p ≠ "") :
    ∃ resp : Response,
      dispatch_request dir fs ⟨.GET, "/echo", hdrs, b, some p, ver⟩
          = .reply resp fs ∧
      resp.statusLine = "HTTP/1.1 200 OK" ∧
      resp.body = p ∧
      List.lookup "Content-Length" resp.headers
        = some (toString p.utf8ByteSize) := by
  refine ⟨⟨RESP_LINE_200,
      content_type_part ⟨.GET, "/echo", hdrs, b, some p, ver⟩ "text/plain" p
        ++ content_encoding_part ⟨.GET, "/echo", hdrs, b, some p, ver⟩
        ++ [("Content-Length", toString p.utf8ByteSize)], p⟩, rfl, rfl, rfl, ?_⟩
  rw [lookupAppend, lookupAppend,
      content_type_part_other _ _ _ "Content-Length" (by decide),
      content_encoding_part_other _ "Content-Length" (by decide)]
  simp [List.lookup]

/-- Witness for C2 at the spec's example GET /echo/abc123: status 200, body
"abc123", Content-Length 6. -/
theorem echo_success_response_witness :
    (∃ resp : Response,
      dispatch_request "d" [] ⟨.GET, "/echo", [], "", some "abc123", "HTTP/1.1"⟩
          = .reply resp [] ∧
      resp.statusLine = "HTTP/1.1 200 OK" ∧
      resp.body = "abc123" ∧
      List.lookup "Content-Length" resp.headers
        = some (toString ("abc123".utf8ByteSize))) ∧
    toString ("abc123".utf8ByteSize) = "6" :=
  ⟨echo_success_response "d" [] [] "" "HTTP/1.1" "abc123" (by decide), rfl⟩

/-- Claim C7: on the success path of the route wrapper (declared code 200 or
201), the response's Content-Type is the request's Content-Type header when
one was sent, else the handler's declared content type when the body is
non-empty, else absent. -/
theorem content_type_negotiation (retcode : Nat) (d : String) (req : Request)
    (fs fs' : FS) (ret : String) (h : retcode = 200 ∨ retcode = 201) :
    ∃ resp : Response,
      route_wrapper retcode d req fs (.ok (ret, fs')) = some (resp, fs') ∧
      List.lookup "Content-Type" resp.headers =
        (match List.lookup "Content-Type" req.headers with
         | some v => some v
         | none => if 0 < ret.utf8ByteSize then some d else none) := by
  refine ⟨⟨if retcode = 200 then RESP_LINE_200 else RESP_LINE_201,
      content_type_part req d ret ++ content_encoding_part req
        ++ [("Content-Length", toString ret.utf8ByteSize)], ret⟩, ?_, ?_⟩
  · unfold route_wrapper
    dsimp only
    rw [if_pos h]
  · rw [lookupAppend, lookupAppend, content_type_part_ct,
        content_encoding_part_other req "Content-Type" (by decide)]
    cases List.lookup "Content-Type" req.headers with
    | some v => rfl
    | none =>
      by_cases hb : 0 < ret.utf8ByteSize
      · simp [hb]
      · simp [hb, List.lookup]

/-- Witness for C7: a request with no Content-Type header and a non-empty
body gets the declared content type. -/
theorem content_type_negotiation_witness :
    ∃ resp : Response,
      route_wrapper 200 "text/plain" ⟨.GET, "/", [], "", none, "HTTP/1.1"⟩ []
          (.ok ("x", [])) = some (resp, []) ∧
      List.lookup "Content-Type" resp.headers =
        (match List.lookup "Content-Type"
            (Request.headers ⟨.GET, "/", [], "", none, "HTTP/1.1"⟩) with
         | some v => some v
         | none => if 0 < "x".utf8ByteSize then some "text/plain" else none) :=
  content_type_negotiation 200 "text/plain" ⟨.GET, "/", [], "", none, "HTTP/1.1"⟩
    [] [] "x" (Or.inl rfl)

/-- Claim C8: on the success path of the route wrapper, the response's
Content-Encoding is the first encoding of the request's comma-space-separated
Accept-Encoding list that lies in SUPPORTED_ENCODINGS, absent when the header
is absent or nothing matches (and no error occurs: the wrapper still returns
a response); the body bytes are emitted verbatim, never transformed. -/
theorem content_encoding_negotiation (retcode : Nat) (d : String)
    (req : Request) (fs fs' : FS) (ret : String)
    (h : retcode = 200 ∨ retcode = 201) :
    ∃ resp : Response,
      route_wrapper retcode d req fs (.ok (ret, fs')) = some (resp, fs') ∧
      resp.body = ret ∧
      List.lookup "Content-Encoding" resp.headers =
        (match List.lookup "Accept-Encoding" req.headers with
         | none => none
         | some raw =>
           (strSplit raw ", ").find? (fun enc => SUPPORTED_ENCODINGS.contains enc)) := by
  refine ⟨⟨if retcode = 200 then RESP_LINE_200 else RESP_LINE_201,
      content_type_part req d ret ++ content_encoding_part req
        ++ [("Content-Length", toString ret.utf8ByteSize)], ret⟩, ?_, rfl, ?_⟩
  · unfold route_wrapper
    dsimp only
    rw [if_pos h]
  · rw [lookupAppend, lookupAppend,
        content_type_part_other req d ret "Content-Encoding" (by decide),
        content_encoding_part_ce]
    cases List.lookup "Accept-Encoding" req.headers with
    | none => rfl
    | some raw =>
      dsimp only
      cases hf : (strSplit raw ", ").find? (fun enc => SUPPORTED_ENCODINGS.contains enc) with
      | none => simp [List.lookup]
      | some m => rfl

/-- Witness for C8 at the spec's example: Accept-Encoding br, gzip selects
gzip; Accept-Encoding br selects nothing. -/
theorem content_encoding_negotiation_witness :
    (∃ resp : Response,
      route_wrapper 200 "text/plain"
          ⟨.GET, "/echo", [("Accept-Encoding", "br, gzip")], "", some "xyz", "HTTP/1.1"⟩
          [] (.ok ("xyz", [])) = some (resp, []) ∧
      resp.body = "xyz" ∧
      List.lookup "Content-Encoding" resp.headers =
        (match List.lookup "Accept-Encoding"
            (Request.headers ⟨.GET, "/echo", [("Accept-Encoding", "br, gzip")], "",
              some "xyz", "HTTP/1.1"⟩) with
         | none => none
         | some raw =>
           (strSplit raw ", ").find? (fun enc => SUPPORTED_ENCODINGS.contains enc))) ∧
    (strSplit "br, gzip" ", ").find? (fun enc => SUPPORTED_ENCODINGS.contains enc)
        = some "gzip" ∧
    (strSplit "br" ", ").find? (fun enc => SUPPORTED_ENCODINGS.contains enc) = none :=
  ⟨content_encoding_negotiation 200 "text/plain"
      ⟨.GET, "/echo", [("Accept-Encoding", "br, gzip")], "", some "xyz", "HTTP/1.1"⟩
      [] [] "xyz" (Or.inl rfl), rfl, rfl⟩

/-- Counterexample to claim C3 as universally stated: posting an EMPTY body
and getting it back yields 200 and Content-Length 0 but NO Content-Type
header at all (the wrapper only emits the declared type for a non-empty
body), so the promised application/octet-stream header is absent. -/
theorem files_round_trip_empty_body_no_content_type :
    run_client "d" [] ["POST /files/f.txt HTTP/1.1" ++ CRLF ++ CRLF,
                       "GET /files/f.txt HTTP/1.1" ++ CRLF ++ CRLF]
        = ⟨[⟨"HTTP/1.1 201 Created", [("Content-Length", "0")], ""⟩,
            ⟨"HTTP/1.1 200 OK", [("Content-Length", "0")], ""⟩],
           [("d/f.txt", "")], .closed⟩ ∧
    List.lookup "Content-Type" [("Content-Length", "0")] = none :=
  ⟨rfl, rfl⟩

/-- Amended claim C3: for every non-empty file name and non-empty body, a
POST to /files with that name and body followed by a GET of the same name
(with no intervening write, and the GET request declaring no Content-Type
header of its own) returns status 200, Content-Type
application/octet-stream, Content-Length equal to the byte length of the
body, and the body exactly as posted.  When the posted body is empty the GET
still returns it with status 200 and Content-Length 0 but without any
Content-Type header. -/
theorem files_round_trip (dir : String) (fs : FS) (name b : String)
    (hname : name ≠ "") (hbody : 0 < b.utf8ByteSize)
    (hdrs1 hdrs2 : List (String × String)) (b2 ver1 ver2 : String)
    (hct : List.lookup "Content-Type" hdrs2 = none) :
    ∃ r1 r2 : Response,
      dispatch_request dir fs ⟨.POST, "/files", hdrs1, b, some name, ver1⟩
          = .reply r1 ((dir ++ "/" ++ name, b) :: fs) ∧
      r1.statusLine = "HTTP/1.1 201 Created" ∧
      dispatch_request dir ((dir ++ "/" ++ name, b) :: fs)
          ⟨.GET, "/files", hdrs2, b2, some name, ver2⟩
          = .reply r2 ((dir ++ "/" ++ name, b) :: fs) ∧
      r2.statusLine = "HTTP/1.1 200 OK" ∧
      r2.body = b ∧
      List.lookup "Content-Type" r2.headers = some "application/octet-stream" ∧
      List.lookup "Content-Length" r2.headers
        = some (toString b.utf8ByteSize) := by
  have hpost : post_file dir fs ⟨.POST, "/files", hdrs1, b, some name, ver1⟩
      = .ok ("", (dir ++ "/" ++ name, b) :: fs) := by
    simp [post_file, hname]
  have hget : get_file dir ((dir ++ "/" ++ name, b) :: fs)
      ⟨.GET, "/files", hdrs2, b2, some name, ver2⟩
      = .ok (b, (dir ++ "/" ++ name, b) :: fs) := by
    simp [get_file, hname, List.lookup]
  refine ⟨⟨RESP_LINE_201,
      content_type_part ⟨.POST, "/files", hdrs1, b, some name, ver1⟩
          "application/octet-stream" ""
        ++ content_encoding_part ⟨.POST, "/files", hdrs1, b, some name, ver1⟩
        ++ [("Content-Length", toString (String.utf8ByteSize ""))], ""⟩,
    ⟨RESP_LINE_200,
      content_type_part ⟨.GET, "/files", hdrs2, b2, some name, ver2⟩
          "application/octet-stream" b
        ++ content_encoding_part ⟨.GET, "/files", hdrs2, b2, some name, ver2⟩
        ++ [("Content-Length", toString b.utf8ByteSize)], b⟩,
    ?_, rfl, ?_, rfl, rfl, ?_, ?_⟩
  · have hred : dispatch_request dir fs ⟨.POST, "/files", hdrs1, b, some name, ver1⟩
        = (match route_wrapper 201 "application/octet-stream"
              ⟨.POST, "/files", hdrs1, b, some name, ver1⟩ fs
              (post_file dir fs ⟨.POST, "/files", hdrs1, b, some name, ver1⟩) with
           | none => ServerReaction.crash
           | some (resp, fs2) => .reply resp fs2) := rfl
    rw [hred, hpost]
    rfl
  · have hred : dispatch_request dir ((dir ++ "/" ++ name, b) :: fs)
          ⟨.GET, "/files", hdrs2, b2, some name, ver2⟩
        = (match route_wrapper 200 "application/octet-stream"
              ⟨.GET, "/files", hdrs2, b2, some name, ver2⟩
              ((dir ++ "/" ++ name, b) :: fs)
              (get_file dir ((dir ++ "/" ++ name, b) :: fs)
                ⟨.GET, "/files", hdrs2, b2, some name, ver2⟩) with
           | none => ServerReaction.crash
           | some (resp, fs2) => .reply resp fs2) := rfl
    rw [hred, hget]
    rfl
  · rw [lookupAppend, lookupAppend, content_type_part_ct,
        content_encoding_part_other _ "Content-Type" (by decide)]
    simp only [Request.headers]
    rw [hct]
    simp [hbody]
  · rw [lookupAppend, lookupAppend,
        content_type_part_other _ _ _ "Content-Length" (by decide),
        content_encoding_part_other _ "Content-Length" (by decide)]
    simp [List.lookup]

/-- Witness for C3 (amended) at the spec's example: posting "hi" to
sample.txt and getting it back. -/
theorem files_round_trip_witness :
    ∃ r1 r2 : Response,
      dispatch_request "d" [] ⟨.POST, "/files", [], "hi", some "sample.txt", "HTTP/1.1"⟩
          = .reply r1 (("d" ++ "/" ++ "sample.txt", "hi") :: []) ∧
      r1.statusLine = "HTTP/1.1 201 Created" ∧
      dispatch_request "d" (("d" ++ "/" ++ "sample.txt", "hi") :: [])
          ⟨.GET, "/files", [], "", some "sample.txt", "HTTP/1.1"⟩
          = .reply r2 (("d" ++ "/" ++ "sample.txt", "hi") :: []) ∧
      r2.statusLine = "HTTP/1.1 200 OK" ∧
      r2.body = "hi" ∧
      List.lookup "Content-Type" r2.headers = some "application/octet-stream" ∧
      List.lookup "Content-Length" r2.headers
        = some (toString ("hi".utf8ByteSize)) :=
  files_round_trip "d" [] "sample.txt" "hi" (by decide) (by decide)
    [] [] "" "HTTP/1.1" "HTTP/1.1" rfl
